import Mathlib

/-!
Shallow embedding of the ReadRight backend serverless handler (`src/main.py`).

External effects (the Gemini LLM, the Diffbot article-extraction HTTP call,
Edge TTS, Appwrite storage and tables) are modelled by an oracle environment
supplying the outcome of each external call; Python exceptions are modelled
as `Except` errors.  Every operation additionally returns a trace of the
external calls it made (which LLM models were invoked, which URLs were
fetched, and the arguments of the row insertion), so that claims about
"model X is never invoked" or "the fetch path is never taken" are statable.
-/

set_option autoImplicit false

namespace ReadRight

/-- One invocation of `gemini_client.models.generate_content`: the model
identifier, the `thinking_budget` config value when one is set, and the
prompt. -/
structure LLMCall where
  model : String
  thinkingBudget : Option Int
  prompt : String
deriving DecidableEq, Repr

/-- `data = {"thinking_config": {"thinking_budget": -1}} if model == "gemini-2.5-flash" else {}`
(src/main.py line 53). -/
def configFor (model : String) : Option Int :=
  if model = "gemini-2.5-flash" then some (-1) else none

/-- Outcome oracle for `gemini_client.models.generate_content`: given model,
thinking-budget config and prompt, either the response's `.text` (already a
`String`; `getattr(result, "text", "")` turns a missing attribute into `""`)
or a raised exception. -/
def LLM : Type := String → Option Int → String → Except String String

/-- The `RuntimeError("All Gemini models failed") from last_error` raised at
src/main.py line 64: the message together with the chained cause, which is
`None` when no model raised. -/
structure FallbackError where
  msg : String
  cause : Option String
deriving DecidableEq, Repr

/-- The ordered model list of `generate_with_fallback` (src/main.py line 48). -/
def geminiModels : List String :=
  ["gemini-2.5-flash", "gemini-2.0-flash", "gemini-1.5-flash"]

/-- Python's `str.strip()` with no arguments: remove leading and trailing
whitespace.  Implemented by structural recursion on the character list so
that concrete instances reduce in the kernel. -/
def pyStrip (s : String) : String :=
  ⟨(((s.data.dropWhile Char.isWhitespace).reverse.dropWhile
      Char.isWhitespace).reverse)⟩

/-- The `for model in models` loop of `generate_with_fallback`
(src/main.py lines 51-62), carrying `last_error` and recording each
`generate_content` invocation.  A call that raises sets `last_error` and
continues; a call whose stripped text is non-empty returns it immediately;
a call whose stripped text is empty continues with `last_error` unchanged.
Exhaustion yields the final `last_error`. -/
def fallbackLoop (llm : LLM) (prompt : String) :
    List String → Option String → Except (Option String) String × List LLMCall
  | [], lastError => (.error lastError, [])
  | model :: rest, lastError =>
    match llm model (configFor model) prompt with
    | .ok t =>
      let text := pyStrip t
      if text ≠ "" then
        (.ok text, [⟨model, configFor model, prompt⟩])
      else
        let r := fallbackLoop llm prompt rest lastError
        (r.1, ⟨model, configFor model, prompt⟩ :: r.2)
    | .error e =>
      let r := fallbackLoop llm prompt rest (some e)
      (r.1, ⟨model, configFor model, prompt⟩ :: r.2)

/-- `generate_with_fallback` (src/main.py lines 46-64): run the loop over
`geminiModels` starting with `last_error = None`; on exhaustion raise
`RuntimeError("All Gemini models failed") from last_error`. -/
def generate_with_fallback (llm : LLM) (prompt : String) :
    Except FallbackError String × List LLMCall :=
  match fallbackLoop llm prompt geminiModels none with
  | (.ok t, calls) => (.ok t, calls)
  | (.error lastError, calls) =>
    (.error ⟨"All Gemini models failed", lastError⟩, calls)

/-- Prompt template of `generate_simplified_text` (src/main.py lines 69-73). -/
def simplifyPrompt (text : String) : String :=
  "Rewrite this article to be dyslexia-friendly with large spacing and easy-to-read formatting. " ++
  "Do not add any headings, labels, or commentary. Only output the rewritten article:\n\n" ++ text

/-- Prompt template of `generate_tldr` (src/main.py lines 79-83). -/
def tldrPrompt (text : String) : String :=
  "Summarize this article in concise bullet points only. " ++
  "Do not add any introduction or labels, just the bullets:\n\n" ++ text

/-- Prompt template of `generate_title` (src/main.py lines 88-92). -/
def titlePrompt (text : String) : String :=
  "Generate a concise and descriptive title for the following article only. " ++
  "Do not add any additional commentary or explanation. Just the title:\n\n" ++ text

/-- `generate_simplified_text` (src/main.py lines 67-74): routes through
`generate_with_fallback`. -/
def generate_simplified_text (llm : LLM) (text : String) :
    Except FallbackError String × List LLMCall :=
  generate_with_fallback llm (simplifyPrompt text)

/-- `generate_tldr` (src/main.py lines 77-84): routes through
`generate_with_fallback`. -/
def generate_tldr (llm : LLM) (text : String) :
    Except FallbackError String × List LLMCall :=
  generate_with_fallback llm (tldrPrompt text)

/-- `generate_title` (src/main.py lines 86-96): a single direct call to
`gemini-2.5-flash` with the unbounded thinking budget, no loop and no
fallback.  The text is not stripped and not checked for emptiness; an
exception propagates to the caller. -/
def generate_title (llm : LLM) (text : String) :
    Except String String × List LLMCall :=
  (llm "gemini-2.5-flash" (some (-1)) (titlePrompt text),
   [⟨"gemini-2.5-flash", some (-1), titlePrompt text⟩])

/-! ## Article acquisition (`fetch_article_text`, src/main.py lines 31-43) -/

/-- One Diffbot article object as read by the code: `obj.get("text", "")`
and `obj.get("title", "Untitled")`. -/
structure DiffObj where
  text : Option String
  title : Option String
deriving DecidableEq, Repr

/-- The parsed JSON body as read by the code: `data.get("objects", [{}])`. -/
structure DiffDoc where
  objects : Option (List DiffObj)
deriving DecidableEq, Repr

/-- Outcome of `requests.get(api_url, timeout=25)`: either a raised transport
exception (network error, timeout), or a delivered response with a status
code and a JSON body (`none` when `response.json()` raises). -/
inductive HttpResult where
  | exn (e : String)
  | resp (status : Nat) (json : Option DiffDoc)
deriving DecidableEq, Repr

/-- Outcome oracle for the HTTP transport, keyed by the full request URL. -/
def Http : Type := String → HttpResult

/-- The `try` block of `fetch_article_text` (src/main.py lines 34-41):
build the Diffbot API URL, perform the GET, `raise_for_status()` (which
raises exactly on status ≥ 400), parse JSON, take
`data.get("objects", [{}])[0]` (an `IndexError` when `objects` is present
but empty), keep the dead `status_code == 404` branch, and read the
`text`/`title` fields with their defaults. -/
def fetchExcept (http : Http) (token url : String) :
    Except String (String × String) :=
  let apiUrl :=
    "https://api.diffbot.com/v3/article?token=" ++ token ++ "&url=" ++ url
  match http apiUrl with
  | .exn e => .error e
  | .resp status json =>
    if 400 ≤ status then .error "HTTPError"
    else
      match json with
      | none => .error "JSONDecodeError"
      | some doc =>
        match doc.objects.getD [⟨none, none⟩] with
        | [] => .error "IndexError"
        | obj :: _ =>
          if status = 404 then .ok ("", "")
          else .ok (obj.text.getD "", obj.title.getD "Untitled")

/-- `fetch_article_text` (src/main.py lines 31-43): the `try` block wrapped
in `except Exception: return "", ""`. -/
def fetch_article_text (http : Http) (token url : String) : String × String :=
  match fetchExcept http token url with
  | .ok p => p
  | .error _ => ("", "")

/-! ## Request handler (`main`, src/main.py lines 118-226) -/

/-- `get_origin_header` together with `ALLOWED_ORIGINS`
(src/main.py lines 21-28). -/
def ALLOWED_ORIGINS : List String :=
  ["http://localhost:8080", "https://readright.appwrite.network"]

/-- Return the origin if it is an exact member of `ALLOWED_ORIGINS`, else
the empty string (src/main.py lines 26-28). -/
def get_origin_header (origin : String) : String :=
  if origin ∈ ALLOWED_ORIGINS then origin else ""

/-- The JSON request body `{url?, text?, docid?}` as read by
`data.get(...)`; a missing key reads as `none` (Python `None`). -/
structure ReqBody where
  url : Option String
  text : Option String
  docid : Option String
deriving DecidableEq, Repr

/-- An incoming request: method, `Origin` header, the `x-appwrite-key`
header (`none` when absent, in which case `context.req.headers["x-appwrite-key"]`
raises a `KeyError`), the `workerid` query parameter, and the parsed JSON
body (`none` when `context.req.body_json` raises on an unparsable body). -/
structure Request where
  method : String
  origin : String
  appwriteKey : Option String
  workerid : Option String
  bodyJson : Option ReqBody
deriving DecidableEq, Repr

/-- Python truthiness of an optional string drawn from the JSON body:
`None` and `""` are falsy, every other string is truthy. -/
def truthy : Option String → Bool
  | none => false
  | some s => s != ""

/-- The `result_data` dict persisted at src/main.py lines 201-206: exactly
the fields `title`, `simplifiedText`, `tldr`, `audioUrl`. -/
structure RowData where
  title : String
  simplifiedText : String
  tldr : String
  audioUrl : String
deriving DecidableEq, Repr

/-- A response body: empty `send` body, the GET execution-status JSON, or
the POST success JSON `{"id": ...}`. -/
inductive RespBody where
  | empty
  | jsonExec (d : String)
  | jsonId (id : String)
deriving DecidableEq, Repr

/-- An HTTP response: status, body, and the literal header list the code
passes to `context.res.send` / `context.res.json`. -/
structure Response where
  status : Nat
  body : RespBody
  headers : List (String × String)
deriving DecidableEq, Repr

/-- The `Access-Control-Allow-Origin` header name. -/
def ACAO : String := "Access-Control-Allow-Origin"

/-- Environment configuration read from `os.environ` at the various call
sites (assumed present for the invocation), plus the Diffbot token. -/
structure Config where
  projectId : String
  functionId : String
  bucketId : String
  databaseId : String
  tableId : String
  diffbotToken : String

/-- Oracle for every external service the handler touches. -/
structure Env where
  llm : LLM
  http : Http
  /-- `functions.get_execution(function_id, execution_id=workerid)`:
  the SDK raises when `workerid` is `None` or invalid; otherwise returns
  the execution object (kept opaque as its serialized form). -/
  getExecution : String → Option String → Except String String
  /-- `storage.create_file(bucket_id, ID.unique(), file)`: returns the
  created file's `$id` or raises. -/
  createFile : String → Except String String
  /-- `edge_tts.Communicate(...).save(filename)`: succeeds or raises
  (the exception is swallowed inside `generate_tts`). -/
  ttsSave : String → Except String Unit
  /-- `tablesDB.create_row(database_id, table_id, row_id, data)`: returns
  the created row's `$id` or raises (the SDK raises, in particular, when
  `row_id` is `None`). -/
  createRow : String → String → Option String → RowData → Except String String

/-- `generate_tts` (src/main.py lines 107-115): attempt the TTS save and
return the filename, swallowing any exception into `""`.  (The caller at
line 185 discards this return value.) -/
def generate_tts (env : Env) (text : String)
    (filename : String := "/tmp/audio.mp3") : String :=
  match env.ttsSave text with
  | .ok _ => filename
  | .error _ => ""

/-- Trace of the externally observable calls one invocation made. -/
structure Trace where
  llmCalls : List LLMCall
  fetchedUrls : List String
  /-- The `(row_id, data)` arguments passed to `tablesDB.create_row`,
  when that call was reached. -/
  rowInsert : Option (Option String × RowData)
deriving DecidableEq, Repr

/-- The trace of an invocation that made no external calls. -/
def Trace.empty : Trace := ⟨[], [], none⟩

/-- The generation-and-persistence pipeline (src/main.py lines 180-218):
read `docid`, simplify, summarize, synthesize audio (result discarded),
upload the audio file, build the public link, insert the result row, and
answer `{"id": row["$id"]}`.  Any raised exception is returned as
`.error` for the top-level handler to catch. -/
def pipeline (cfg : Config) (env : Env) (allowed : String) (body : ReqBody)
    (articleText title : String) (calls0 : List LLMCall)
    (fetched : List String) : Except String Response × Trace :=
  let docid := body.docid
  let s := generate_with_fallback env.llm (simplifyPrompt articleText)
  match s.1 with
  | .error e => (.error e.msg, ⟨calls0 ++ s.2, fetched, none⟩)
  | .ok simplified =>
    let tl := generate_with_fallback env.llm (tldrPrompt articleText)
    match tl.1 with
    | .error e => (.error e.msg, ⟨calls0 ++ s.2 ++ tl.2, fetched, none⟩)
    | .ok tldr =>
      let calls := calls0 ++ s.2 ++ tl.2
      let _ := generate_tts env simplified
      match env.createFile cfg.bucketId with
      | .error e => (.error e, ⟨calls, fetched, none⟩)
      | .ok fileId =>
        let audioLink :=
          "https://fra.cloud.appwrite.io/v1/storage/buckets/" ++
          cfg.bucketId ++ "/files/" ++ fileId ++ "/view?project=" ++
          cfg.projectId
        let rd : RowData := ⟨title, simplified, tldr, audioLink⟩
        match env.createRow cfg.databaseId cfg.tableId docid rd with
        | .error e => (.error e, ⟨calls, fetched, some (docid, rd)⟩)
        | .ok rowId =>
          (.ok ⟨200, .jsonId rowId, [(ACAO, allowed)]⟩,
           ⟨calls, fetched, some (docid, rd)⟩)

/-- The POST branch of `main` (src/main.py lines 158-218): read `url` and
`text` from the body; a truthy `text` is used directly and titled via
`generate_title`; otherwise a truthy `url` is fetched and an empty
fetched text answers 404; otherwise answer 400. -/
def postFlow (cfg : Config) (env : Env) (allowed : String) (body : ReqBody) :
    Except String Response × Trace :=
  if truthy body.text then
    let articleText := body.text.getD ""
    let gt := generate_title env.llm articleText
    match gt.1 with
    | .error e => (.error e, ⟨gt.2, [], none⟩)
    | .ok title =>
      pipeline cfg env allowed body articleText title gt.2 []
  else if truthy body.url then
    let u := body.url.getD ""
    let ft := fetch_article_text env.http cfg.diffbotToken u
    if ft.1 = "" then
      (.ok ⟨404, .empty, [(ACAO, allowed)]⟩, ⟨[], [u], none⟩)
    else
      pipeline cfg env allowed body ft.1 ft.2 [] [u]
  else
    (.ok ⟨400, .empty, [(ACAO, allowed)]⟩, Trace.empty)

/-- The `try` block of `main` (src/main.py lines 123-218): OPTIONS
preflight; Appwrite client init (raises `KeyError` when the
`x-appwrite-key` header is absent); the GET execution-status branch; and
the POST branch for every other method.  `.error` models a raised
exception reaching the `except` clause. -/
def mainTry (cfg : Config) (env : Env) (req : Request) (allowed : String) :
    Except String Response × Trace :=
  if req.method = "OPTIONS" then
    (.ok ⟨200, .empty,
      [(ACAO, allowed),
       ("Access-Control-Allow-Methods", "POST, GET, OPTIONS"),
       ("Access-Control-Allow-Headers", "Content-Type, Authorization")]⟩,
     Trace.empty)
  else
    match req.appwriteKey with
    | none => (.error "KeyError: x-appwrite-key", Trace.empty)
    | some _ =>
      if req.method = "GET" then
        match env.getExecution cfg.functionId req.workerid with
        | .error e => (.error e, Trace.empty)
        | .ok d => (.ok ⟨200, .jsonExec d, [(ACAO, allowed)]⟩, Trace.empty)
      else
        match req.bodyJson with
        | none => (.error "body_json", Trace.empty)
        | some body => postFlow cfg env allowed body

/-- `main` (src/main.py lines 118-226): compute the validated origin, run
the `try` block, and convert any raised exception into a 500 response with
empty body and the CORS header. -/
def appMain (cfg : Config) (env : Env) (req : Request) : Response × Trace :=
  let allowed := get_origin_header req.origin
  match mainTry cfg env req allowed with
  | (.ok r, tr) => (r, tr)
  | (.error _, tr) => (⟨500, .empty, [(ACAO, allowed)]⟩, tr)

/-! ## Helper notions for the fallback-loop claims -/

/-- The `LLMCall` record produced by the loop for a given model. -/
def callOf (prompt model : String) : LLMCall :=
  ⟨model, configFor model, prompt⟩

/-- A model attempt that does not short-circuit the loop: the call either
raises, or succeeds with text that is empty after stripping. -/
def failsOrBlank (llm : LLM) (prompt model : String) : Prop :=
  (∃ e, llm model (configFor model) prompt = .error e) ∨
  (∃ t, llm model (configFor model) prompt = .ok t ∧ pyStrip t = "")

/-- If every model in a prefix fails or returns blank text and the next
model returns non-empty stripped text, the loop stops there with that text,
having invoked exactly the prefix and the succeeding model, and the result
does not depend on the incoming `last_error`. -/
theorem fallbackLoop_first_success (llm : LLM) (prompt : String)
    (m : String) (post : List String) (t : String)
    (hm : llm m (configFor m) prompt = .ok t) (ht : ¬pyStrip t = "") :
    ∀ (pre : List String) (lastError : Option String),
      (∀ m' ∈ pre, failsOrBlank llm prompt m') →
      fallbackLoop llm prompt (pre ++ m :: post) lastError =
        (.ok (pyStrip t), pre.map (callOf prompt) ++ [callOf prompt m]) := by
  intro pre
  induction pre with
  | nil =>
    intro lastError _
    simp [fallbackLoop, hm, ht, callOf]
  | cons m' rest ih =>
    intro lastError hpre
    have hrest : ∀ x ∈ rest, failsOrBlank llm prompt x :=
      fun x hx => hpre x (List.mem_cons_of_mem _ hx)
    rcases hpre m' (List.mem_cons_self _ _) with ⟨e, he⟩ | ⟨t', ht', hblank⟩
    · simp [fallbackLoop, he, ih (some e) hrest, callOf]
    · simp [fallbackLoop, ht', hblank, ih lastError hrest, callOf]

/-- Every call the loop records is to a model of the list it was given. -/
theorem fallbackLoop_calls_models (llm : LLM) (prompt : String) :
    ∀ (ms : List String) (lastError : Option String) (c : LLMCall),
      c ∈ (fallbackLoop llm prompt ms lastError).2 → c.model ∈ ms := by
  intro ms
  induction ms with
  | nil =>
    intro lastError c hc
    simp [fallbackLoop] at hc
  | cons m rest ih =>
    intro lastError c hc
    unfold fallbackLoop at hc
    cases hllm : llm m (configFor m) prompt with
    | ok t =>
      rw [hllm] at hc
      by_cases ht : pyStrip t = ""
      · simp [ht] at hc
        rcases hc with rfl | hc
        · exact List.mem_cons_self _ _
        · exact List.mem_cons_of_mem _ (ih _ _ hc)
      · simp [ht] at hc
        subst hc
        exact List.mem_cons_self _ _
    | error e =>
      rw [hllm] at hc
      simp at hc
      rcases hc with rfl | hc
      · exact List.mem_cons_self _ _
      · exact List.mem_cons_of_mem _ (ih _ _ hc)

/-! ## Concrete oracles used by the witnesses -/

/-- LLM oracle whose primary model answers `" Hello. "` and whose other
models raise. -/
def llmA : LLM := fun model _ _ =>
  if model = "gemini-2.5-flash" then .ok " Hello. " else .error "later model invoked"

/-- LLM oracle in which every model raises. -/
def llmB : LLM := fun model _ _ => .error ("fail-" ++ model)

/-- LLM oracle whose primary model raises and whose other models answer
`" ok "`. -/
def llmC : LLM := fun model _ _ =>
  if model = "gemini-2.5-flash" then .error "boom" else .ok " ok "

/-- LLM oracle in which every model succeeds with whitespace-only text. -/
def llmD : LLM := fun _ _ _ => .ok "  "

/-! ## C1-C3: the fallback policy -/

/-- C1: `generate_with_fallback` short-circuits on first success.  For any
split of the ordered model list into a prefix of attempts that raise or
return blank text, a model whose call returns text that is non-empty after
stripping, and a remainder: the trimmed text is returned immediately, the
recorded invocations are exactly the prefix plus the succeeding model, and
no model of the remainder is ever invoked. -/
theorem generate_with_fallback_short_circuits
    (llm : LLM) (prompt : String) (pre : List String) (m : String)
    (post : List String) (t : String)
    (hsplit : geminiModels = pre ++ m :: post)
    (hpre : ∀ m' ∈ pre, failsOrBlank llm prompt m')
    (hm : llm m (configFor m) prompt = .ok t) (ht : ¬pyStrip t = "") :
    generate_with_fallback llm prompt =
      (.ok (pyStrip t), pre.map (callOf prompt) ++ [callOf prompt m]) ∧
    ∀ mLater ∈ post, ∀ c ∈ (generate_with_fallback llm prompt).2,
      c.model ≠ mLater := by
  have hloop := fallbackLoop_first_success llm prompt m post t hm ht pre none hpre
  have hmain : generate_with_fallback llm prompt =
      (.ok (pyStrip t), pre.map (callOf prompt) ++ [callOf prompt m]) := by
    rw [generate_with_fallback, hsplit, hloop]
  refine ⟨hmain, ?_⟩
  have hnodup : (pre ++ m :: post).Nodup := by
    rw [← hsplit]; decide
  rw [List.nodup_append] at hnodup
  obtain ⟨-, hnd2, hdisj⟩ := hnodup
  intro mLater hmL c hc
  rw [hmain] at hc
  simp at hc
  rcases hc with ⟨m', hm', rfl⟩ | rfl
  · intro hEq
    simp [callOf] at hEq
    exact hdisj hm' (hEq ▸ List.mem_cons_of_mem _ hmL)
  · intro hEq
    simp [callOf] at hEq
    exact (List.nodup_cons.mp hnd2).1 (hEq ▸ hmL)

/-- Witness for C1: with an oracle whose primary model answers
`" Hello. "`, the fallback returns the trimmed text after invoking only the
primary model. -/
theorem generate_with_fallback_short_circuits_witness :
    generate_with_fallback llmA "p" =
      (.ok "Hello.", [callOf "p" "gemini-2.5-flash"]) ∧
    ∀ mLater ∈ ["gemini-2.0-flash", "gemini-1.5-flash"],
      ∀ c ∈ (generate_with_fallback llmA "p").2, c.model ≠ mLater := by
  have h := generate_with_fallback_short_circuits llmA "p" [] "gemini-2.5-flash"
    ["gemini-2.0-flash", "gemini-1.5-flash"] " Hello. " rfl (by simp) rfl (by decide)
  have htrim : pyStrip " Hello. " = "Hello." := rfl
  rw [htrim] at h
  simpa using h

/-- C2: exception handling in `generate_with_fallback`.  (i) A model call
that raises records the exception as the new `last_error` and the loop
continues with the next model instead of aborting.  (ii) If all three
models raise, the fallback-exhaustion error is raised, chaining the last
model's exception.  (iii) If the primary model raises but the secondary
returns non-empty text, that text is returned and the captured error is
discarded. -/
theorem generate_with_fallback_exceptions (llm : LLM) (prompt : String) :
    (∀ m rest lastError e, llm m (configFor m) prompt = .error e →
      fallbackLoop llm prompt (m :: rest) lastError =
        ((fallbackLoop llm prompt rest (some e)).1,
         callOf prompt m :: (fallbackLoop llm prompt rest (some e)).2)) ∧
    (∀ e1 e2 e3,
      llm "gemini-2.5-flash" (configFor "gemini-2.5-flash") prompt = .error e1 →
      llm "gemini-2.0-flash" (configFor "gemini-2.0-flash") prompt = .error e2 →
      llm "gemini-1.5-flash" (configFor "gemini-1.5-flash") prompt = .error e3 →
      generate_with_fallback llm prompt =
        (.error ⟨"All Gemini models failed", some e3⟩,
         geminiModels.map (callOf prompt))) ∧
    (∀ e t,
      llm "gemini-2.5-flash" (configFor "gemini-2.5-flash") prompt = .error e →
      llm "gemini-2.0-flash" (configFor "gemini-2.0-flash") prompt = .ok t →
      ¬pyStrip t = "" →
      generate_with_fallback llm prompt =
        (.ok (pyStrip t),
         [callOf prompt "gemini-2.5-flash", callOf prompt "gemini-2.0-flash"])) := by
  refine ⟨?_, ?_, ?_⟩
  · intro m rest lastError e he
    simp [fallbackLoop, he, callOf]
  · intro e1 e2 e3 h1 h2 h3
    simp [generate_with_fallback, geminiModels, fallbackLoop, h1, h2, h3, callOf]
  · intro e t h1 h2 ht
    simp [generate_with_fallback, geminiModels, fallbackLoop, h1, h2, ht, callOf]

/-- Witness for C2: with an all-raising oracle the exhaustion error chains
the tertiary model's exception; with an oracle whose primary raises and
secondary answers `" ok "`, the result is `"ok"` and the error is
discarded. -/
theorem generate_with_fallback_exceptions_witness :
    generate_with_fallback llmB "p" =
      (.error ⟨"All Gemini models failed", some "fail-gemini-1.5-flash"⟩,
       geminiModels.map (callOf "p")) ∧
    generate_with_fallback llmC "p" =
      (.ok "ok", [callOf "p" "gemini-2.5-flash", callOf "p" "gemini-2.0-flash"]) := by
  refine ⟨(generate_with_fallback_exceptions llmB "p").2.1 _ _ _ rfl rfl rfl, ?_⟩
  have h := (generate_with_fallback_exceptions llmC "p").2.2 "boom" " ok " rfl rfl (by decide)
  have htrim : pyStrip " ok " = "ok" := rfl
  rwa [htrim] at h

/-- C3: whitespace-only successes in `generate_with_fallback`.  (i) A model
call that succeeds with text that is blank after stripping leaves
`last_error` unchanged and the loop continues with the next model.  (ii) If
all three models return blank text, the exhaustion error is raised with no
chained cause (`None`). -/
theorem generate_with_fallback_blank (llm : LLM) (prompt : String) :
    (∀ m rest lastError t, llm m (configFor m) prompt = .ok t → pyStrip t = "" →
      fallbackLoop llm prompt (m :: rest) lastError =
        ((fallbackLoop llm prompt rest lastError).1,
         callOf prompt m :: (fallbackLoop llm prompt rest lastError).2)) ∧
    (∀ t1 t2 t3,
      llm "gemini-2.5-flash" (configFor "gemini-2.5-flash") prompt = .ok t1 →
      pyStrip t1 = "" →
      llm "gemini-2.0-flash" (configFor "gemini-2.0-flash") prompt = .ok t2 →
      pyStrip t2 = "" →
      llm "gemini-1.5-flash" (configFor "gemini-1.5-flash") prompt = .ok t3 →
      pyStrip t3 = "" →
      generate_with_fallback llm prompt =
        (.error ⟨"All Gemini models failed", none⟩,
         geminiModels.map (callOf prompt))) := by
  refine ⟨?_, ?_⟩
  · intro m rest lastError t hm ht
    simp [fallbackLoop, hm, ht, callOf]
  · intro t1 t2 t3 h1 ht1 h2 ht2 h3 ht3
    simp [generate_with_fallback, geminiModels, fallbackLoop,
      h1, ht1, h2, ht2, h3, ht3, callOf]

/-- Witness for C3: with an oracle that answers whitespace on every model,
the exhaustion error carries no cause and all three models were tried. -/
theorem generate_with_fallback_blank_witness :
    generate_with_fallback llmD "p" =
      (.error ⟨"All Gemini models failed", none⟩,
       geminiModels.map (callOf "p")) :=
  (generate_with_fallback_blank llmD "p").2 "  " "  " "  "
    rfl (by decide) rfl (by decide) rfl (by decide)

/-! ## C5: fetch_article_text is total at its boundary -/

/-- C5: `fetch_article_text` never lets an exception past its boundary and
reports every failure as `("", "")`.  (i) Whatever outcome the transport
and parsing produce, if the `try` body raises then the result is
`("", "")`; this covers network errors, JSON decode errors and the
index error on an empty `objects` list.  (ii) A delivered response with an
HTTP-error status (≥ 400, which `raise_for_status` turns into an
exception, and which includes the 404 not-found report) also yields
`("", "")`. -/
theorem fetch_article_text_total (http : Http) (token url : String) :
    (∀ e, fetchExcept http token url = .error e →
      fetch_article_text http token url = ("", "")) ∧
    (∀ status json,
      http ("https://api.diffbot.com/v3/article?token=" ++ token ++
        "&url=" ++ url) = .resp status json →
      400 ≤ status →
      fetch_article_text http token url = ("", "")) ∧
    (∀ e, http ("https://api.diffbot.com/v3/article?token=" ++ token ++
        "&url=" ++ url) = .exn e →
      fetch_article_text http token url = ("", "")) := by
  refine ⟨?_, ?_, ?_⟩
  · intro e he
    simp [fetch_article_text, he]
  · intro status json hresp hstatus
    have he : fetchExcept http token url = .error "HTTPError" := by
      simp [fetchExcept, hresp, hstatus]
    simp [fetch_article_text, he]
  · intro e he
    have he2 : fetchExcept http token url = .error e := by
      simp [fetchExcept, he]
    simp [fetch_article_text, he2]

/-- Transport oracle that always raises. -/
def httpExn : Http := fun _ => .exn "ConnectionError"

/-- Transport oracle that always delivers a 404 with a well-formed body. -/
def http404 : Http := fun _ =>
  .resp 404 (some ⟨some [⟨some "some text", some "T"⟩]⟩)

/-- Witness for C5: a raising transport and a 404 response both produce
the `("", "")` sentinel. -/
theorem fetch_article_text_total_witness :
    fetch_article_text httpExn "tok" "http://x" = ("", "") ∧
    fetch_article_text http404 "tok" "http://x" = ("", "") :=
  ⟨(fetch_article_text_total httpExn "tok" "http://x").2.2 "ConnectionError" rfl,
   (fetch_article_text_total http404 "tok" "http://x").2.1 404
     (some ⟨some [⟨some "some text", some "T"⟩]⟩) rfl (by decide)⟩

/-! ## C6: title generation bypasses the fallback -/

/-- C6: the asymmetry between title generation and the other two prompts.
`generate_simplified_text` and `generate_tldr` route through
`generate_with_fallback` (whose every recorded invocation is to a model of
the three-model list), while `generate_title` performs exactly one direct
call to `gemini-2.5-flash` — for every input and oracle its call trace is
that single primary-model call and its result is the raw outcome of that
call, with no fallback loop. -/
theorem title_generation_asymmetry (llm : LLM) (text prompt : String) :
    generate_simplified_text llm text =
      generate_with_fallback llm (simplifyPrompt text) ∧
    generate_tldr llm text = generate_with_fallback llm (tldrPrompt text) ∧
    (generate_title llm text).2 =
      [⟨"gemini-2.5-flash", some (-1), titlePrompt text⟩] ∧
    (generate_title llm text).1 =
      llm "gemini-2.5-flash" (some (-1)) (titlePrompt text) ∧
    ∀ c ∈ (generate_with_fallback llm prompt).2, c.model ∈ geminiModels := by
  refine ⟨rfl, rfl, rfl, rfl, ?_⟩
  intro c hc
  have hcalls : (generate_with_fallback llm prompt).2 =
      (fallbackLoop llm prompt geminiModels none).2 := by
    unfold generate_with_fallback
    rcases h : fallbackLoop llm prompt geminiModels none with ⟨res, calls⟩
    cases res <;> simp
  rw [hcalls] at hc
  exact fallbackLoop_calls_models llm prompt geminiModels none c hc

/-- Witness for C6: with the concrete oracle `llmA`, the title trace is the
single primary call, and the one call recorded by the fallback wrapper is
to a model of the list. -/
theorem title_generation_asymmetry_witness :
    (generate_title llmA "x").2 =
      [⟨"gemini-2.5-flash", some (-1), titlePrompt "x"⟩] ∧
    (⟨"gemini-2.5-flash", some (-1), "p"⟩ : LLMCall).model ∈ geminiModels := by
  refine ⟨(title_generation_asymmetry llmA "x" "p").2.2.1, ?_⟩
  exact (title_generation_asymmetry llmA "x" "p").2.2.2.2
    ⟨"gemini-2.5-flash", some (-1), "p"⟩ (by decide)

/-! ## Handler lemmas -/

/-- Looking up the CORS header at the head of a header list. -/
theorem lookup_acao_head (v : String) (rest : List (String × String)) :
    List.lookup ACAO ((ACAO, v) :: rest) = some v := by
  simp [List.lookup]

/-- Every non-exceptional response the pipeline produces carries the CORS
header with the validated origin. -/
theorem pipeline_ok_acao (cfg : Config) (env : Env) (allowed : String)
    (body : ReqBody) (articleText title : String) (calls0 : List LLMCall)
    (fetched : List String) (r : Response) (tr : Trace)
    (h : pipeline cfg env allowed body articleText title calls0 fetched =
      (.ok r, tr)) :
    r.headers.lookup ACAO = some allowed := by
  simp only [pipeline] at h
  rcases hs : (generate_with_fallback env.llm (simplifyPrompt articleText)).1 with e | simplified
  · rw [hs] at h; simp at h
  · rw [hs] at h
    dsimp only at h
    rcases htl : (generate_with_fallback env.llm (tldrPrompt articleText)).1 with e | tldrText
    · rw [htl] at h; simp at h
    · rw [htl] at h
      dsimp only at h
      rcases hcf : env.createFile cfg.bucketId with e | fileId
      · rw [hcf] at h; simp at h
      · rw [hcf] at h
        dsimp only at h
        rcases hcr : env.createRow cfg.databaseId cfg.tableId body.docid
            ⟨title, simplified, tldrText,
             "https://fra.cloud.appwrite.io/v1/storage/buckets/" ++
               cfg.bucketId ++ "/files/" ++ fileId ++ "/view?project=" ++
               cfg.projectId⟩ with e | rowId
        · rw [hcr] at h; simp at h
        · rw [hcr] at h
          simp at h
          obtain ⟨rfl, -⟩ := h
          exact lookup_acao_head _ _

/-- Every non-exceptional response the POST branch produces carries the
CORS header with the validated origin. -/
theorem postFlow_ok_acao (cfg : Config) (env : Env) (allowed : String)
    (body : ReqBody) (r : Response) (tr : Trace)
    (h : postFlow cfg env allowed body = (.ok r, tr)) :
    r.headers.lookup ACAO = some allowed := by
  simp only [postFlow] at h
  by_cases ht : truthy body.text
  · rw [if_pos ht] at h
    rcases hgt : (generate_title env.llm (body.text.getD "")).1 with e | title
    · rw [hgt] at h; simp at h
    · rw [hgt] at h
      exact pipeline_ok_acao _ _ _ _ _ _ _ _ _ _ h
  · rw [if_neg ht] at h
    by_cases hu : truthy body.url
    · rw [if_pos hu] at h
      by_cases hft :
          (fetch_article_text env.http cfg.diffbotToken (body.url.getD "")).1 = ""
      · rw [if_pos hft] at h
        simp at h
        obtain ⟨rfl, -⟩ := h
        exact lookup_acao_head _ _
      · rw [if_neg hft] at h
        exact pipeline_ok_acao _ _ _ _ _ _ _ _ _ _ h
    · rw [if_neg hu] at h
      simp at h
      obtain ⟨rfl, -⟩ := h
      exact lookup_acao_head _ _

/-- Every non-exceptional response of the `try` block carries the CORS
header with the validated origin. -/
theorem mainTry_ok_acao (cfg : Config) (env : Env) (req : Request)
    (allowed : String) (r : Response) (tr : Trace)
    (h : mainTry cfg env req allowed = (.ok r, tr)) :
    r.headers.lookup ACAO = some allowed := by
  simp only [mainTry] at h
  by_cases hO : req.method = "OPTIONS"
  · rw [if_pos hO] at h
    simp at h
    obtain ⟨rfl, -⟩ := h
    exact lookup_acao_head _ _
  · rw [if_neg hO] at h
    rcases hk : req.appwriteKey with - | key
    · rw [hk] at h; simp at h
    · rw [hk] at h
      by_cases hG : req.method = "GET"
      · rw [if_pos hG] at h
        rcases hge : env.getExecution cfg.functionId req.workerid with e | d
        · rw [hge] at h; simp at h
        · rw [hge] at h
          simp at h
          obtain ⟨rfl, -⟩ := h
          exact lookup_acao_head _ _
      · rw [if_neg hG] at h
        rcases hb : req.bodyJson with - | body
        · rw [hb] at h; simp at h
        · rw [hb] at h
          exact postFlow_ok_acao _ _ _ _ _ _ h

/-! ## C7: every response carries the CORS header -/

/-- C7: for every configuration, oracle and request — hence on every
response path: OPTIONS preflight, GET status, POST success, 400, 404 and
the catch-all 500 — the response's `Access-Control-Allow-Origin` header is
the request's `Origin` value when it is an exact member of the allow-list,
and the empty string otherwise. -/
theorem every_response_carries_cors (cfg : Config) (env : Env)
    (req : Request) :
    ((appMain cfg env req).1.headers).lookup ACAO =
      some (if req.origin ∈ ALLOWED_ORIGINS then req.origin else "") := by
  have hval : (if req.origin ∈ ALLOWED_ORIGINS then req.origin else "") =
      get_origin_header req.origin := rfl
  rw [hval]
  simp only [appMain]
  rcases hm : mainTry cfg env req (get_origin_header req.origin) with ⟨res, tr⟩
  cases res with
  | ok r =>
    exact mainTry_ok_acao cfg env req _ r tr hm
  | error e =>
    exact lookup_acao_head _ _

/-! ## C8: the top-level catch-all -/

/-- C8: any exception raised inside the `try` block — anywhere after the
CORS computation, from client initialization and the GET status lookup
through acquisition, generation and persistence — is caught at the top
level and converted into a 500 response with empty body and the CORS
header; no exception escapes `main` (which, by construction, always
returns a response). -/
theorem unhandled_exception_yields_500 (cfg : Config) (env : Env)
    (req : Request) (e : String) (tr : Trace)
    (h : mainTry cfg env req (get_origin_header req.origin) = (.error e, tr)) :
    appMain cfg env req =
      (⟨500, .empty, [(ACAO, get_origin_header req.origin)]⟩, tr) := by
  simp [appMain, h]

/-! ## Concrete handler environments used by the witnesses -/

/-- A fully successful environment: the primary model answers, file upload
and row insertion succeed, TTS succeeds. -/
def envA : Env where
  llm := llmA
  http := fun _ => .exn "net"
  getExecution := fun _ w =>
    match w with
    | none => .error "missing workerid"
    | some w => .ok ("exec:" ++ w)
  createFile := fun _ => .ok "file1"
  ttsSave := fun _ => .ok ()
  createRow := fun _ _ rid _ =>
    match rid with
    | none => .error "Missing required parameter: row_id"
    | some r => .ok r

/-- Concrete configuration for the witnesses. -/
def cfgA : Config :=
  ⟨"proj", "fn", "bucket", "db", "table", "tok"⟩

/-- A POST request whose `x-appwrite-key` header is absent, so that client
initialization raises a `KeyError`. -/
def reqKeyless : Request :=
  ⟨"POST", "http://localhost:8080", none, none,
   some ⟨none, some "body text", none⟩⟩

/-- Witness for C8: the keyless request makes client initialization raise,
and the handler answers 500 with empty body and the CORS header for the
allow-listed origin. -/
theorem unhandled_exception_yields_500_witness :
    appMain cfgA envA reqKeyless =
      (⟨500, .empty, [(ACAO, "http://localhost:8080")]⟩, Trace.empty) :=
  unhandled_exception_yields_500 cfgA envA reqKeyless
    "KeyError: x-appwrite-key" Trace.empty rfl

/-! ## POST-dispatch lemmas -/

/-- Under a non-OPTIONS, non-GET method with the key header present and a
parsable body, the `try` block is exactly the POST branch. -/
theorem mainTry_post (cfg : Config) (env : Env) (req : Request)
    (key : String) (body : ReqBody) (allowed : String)
    (hO : req.method ≠ "OPTIONS") (hG : req.method ≠ "GET")
    (hk : req.appwriteKey = some key) (hb : req.bodyJson = some body) :
    mainTry cfg env req allowed = postFlow cfg env allowed body := by
  simp [mainTry, hO, hG, hk, hb]

/-- Under the same conditions, `main` is the POST branch with its
exceptions converted to the 500 response. -/
theorem appMain_post (cfg : Config) (env : Env) (req : Request)
    (key : String) (body : ReqBody)
    (hO : req.method ≠ "OPTIONS") (hG : req.method ≠ "GET")
    (hk : req.appwriteKey = some key) (hb : req.bodyJson = some body) :
    appMain cfg env req =
      (match postFlow cfg env (get_origin_header req.origin) body with
       | (.ok r, tr) => (r, tr)
       | (.error _, tr) =>
         (⟨500, .empty, [(ACAO, get_origin_header req.origin)]⟩, tr)) := by
  simp only [appMain]
  rw [mainTry_post cfg env req key body _ hO hG hk hb]

/-- The pipeline's trace keeps the fetch list it was given and extends the
given call list. -/
theorem pipeline_trace (cfg : Config) (env : Env) (allowed : String)
    (body : ReqBody) (articleText title : String) (calls0 : List LLMCall)
    (fetched : List String) :
    (pipeline cfg env allowed body articleText title calls0 fetched).2.fetchedUrls
      = fetched ∧
    ∃ extra,
      (pipeline cfg env allowed body articleText title calls0 fetched).2.llmCalls
        = calls0 ++ extra := by
  simp only [pipeline]
  rcases (generate_with_fallback env.llm (simplifyPrompt articleText)).1 with e | simplified
  · exact ⟨rfl,
      (generate_with_fallback env.llm (simplifyPrompt articleText)).2, rfl⟩
  · dsimp only
    rcases (generate_with_fallback env.llm (tldrPrompt articleText)).1 with e | tldrText
    · exact ⟨rfl,
        (generate_with_fallback env.llm (simplifyPrompt articleText)).2 ++
          (generate_with_fallback env.llm (tldrPrompt articleText)).2,
        List.append_assoc _ _ _⟩
    · dsimp only
      rcases env.createFile cfg.bucketId with e | fileId
      · exact ⟨rfl,
          (generate_with_fallback env.llm (simplifyPrompt articleText)).2 ++
            (generate_with_fallback env.llm (tldrPrompt articleText)).2,
          List.append_assoc _ _ _⟩
      · dsimp only
        rcases env.createRow cfg.databaseId cfg.tableId body.docid
            ⟨title, simplified, tldrText,
             "https://fra.cloud.appwrite.io/v1/storage/buckets/" ++
               cfg.bucketId ++ "/files/" ++ fileId ++ "/view?project=" ++
               cfg.projectId⟩ with e | rowId
        · exact ⟨rfl,
            (generate_with_fallback env.llm (simplifyPrompt articleText)).2 ++
              (generate_with_fallback env.llm (tldrPrompt articleText)).2,
            List.append_assoc _ _ _⟩
        · exact ⟨rfl,
            (generate_with_fallback env.llm (simplifyPrompt articleText)).2 ++
              (generate_with_fallback env.llm (tldrPrompt articleText)).2,
            List.append_assoc _ _ _⟩

/-- The POST branch with a truthy `text`: the URL fetch never runs and the
first LLM invocation is the title call on that text. -/
theorem postFlow_text_branch (cfg : Config) (env : Env) (allowed : String)
    (body : ReqBody) (ht : truthy body.text = true) :
    (postFlow cfg env allowed body).2.fetchedUrls = [] ∧
    ∃ rest, (postFlow cfg env allowed body).2.llmCalls =
      LLMCall.mk "gemini-2.5-flash" (some (-1))
        (titlePrompt (body.text.getD "")) :: rest := by
  simp only [postFlow, ht, if_true]
  rcases (generate_title env.llm (body.text.getD "")).1 with e | title
  · exact ⟨rfl, [], rfl⟩
  · obtain ⟨hf, extra, hc⟩ := pipeline_trace cfg env allowed body
      (body.text.getD "") title (generate_title env.llm (body.text.getD "")).2 []
    exact ⟨hf, extra, hc⟩

/-- The POST branch with a falsy `text` and truthy `url`: the URL is
fetched, and an empty fetched text yields the 404 response. -/
theorem postFlow_url_branch (cfg : Config) (env : Env) (allowed : String)
    (body : ReqBody) (ht : truthy body.text = false)
    (hu : truthy body.url = true) :
    (postFlow cfg env allowed body).2.fetchedUrls = [body.url.getD ""] ∧
    ((fetch_article_text env.http cfg.diffbotToken (body.url.getD "")).1 = "" →
      postFlow cfg env allowed body =
        (.ok ⟨404, .empty, [(ACAO, allowed)]⟩,
         ⟨[], [body.url.getD ""], none⟩)) := by
  simp only [postFlow, ht, hu, Bool.false_eq_true, if_false, if_true]
  by_cases hft :
      (fetch_article_text env.http cfg.diffbotToken (body.url.getD "")).1 = ""
  · rw [if_pos hft]
    exact ⟨rfl, fun _ => rfl⟩
  · rw [if_neg hft]
    refine ⟨(pipeline_trace cfg env allowed body _ _ [] [body.url.getD ""]).1,
      fun hc => absurd hc hft⟩

/-- The POST branch with falsy `text` and falsy `url`: the 400 response,
with no external calls made. -/
theorem postFlow_400 (cfg : Config) (env : Env) (allowed : String)
    (body : ReqBody) (ht : truthy body.text = false)
    (hu : truthy body.url = false) :
    postFlow cfg env allowed body =
      (.ok ⟨400, .empty, [(ACAO, allowed)]⟩, Trace.empty) := by
  simp [postFlow, ht, hu]

/-! ## C4: POST input dispatch -/

/-- C4: for every POST request (any method other than OPTIONS and GET)
with a parsable body and the key header present: a truthy `text` is used —
the URL fetch path is never invoked and the first LLM call is the title
call on that text; otherwise a truthy `url` is fetched, and a fetch
yielding empty text answers 404 with the CORS header; otherwise the
response is 400 with the CORS header. -/
theorem post_dispatch (cfg : Config) (env : Env) (req : Request)
    (key : String) (body : ReqBody)
    (hO : req.method ≠ "OPTIONS") (hG : req.method ≠ "GET")
    (hk : req.appwriteKey = some key) (hb : req.bodyJson = some body) :
    (truthy body.text = true →
      (appMain cfg env req).2.fetchedUrls = [] ∧
      ∃ rest, (appMain cfg env req).2.llmCalls =
        LLMCall.mk "gemini-2.5-flash" (some (-1))
          (titlePrompt (body.text.getD "")) :: rest) ∧
    (truthy body.text = false → truthy body.url = true →
      (appMain cfg env req).2.fetchedUrls = [body.url.getD ""] ∧
      ((fetch_article_text env.http cfg.diffbotToken (body.url.getD "")).1 = "" →
        (appMain cfg env req).1 =
          ⟨404, .empty, [(ACAO, get_origin_header req.origin)]⟩)) ∧
    (truthy body.text = false → truthy body.url = false →
      (appMain cfg env req).1 =
        ⟨400, .empty, [(ACAO, get_origin_header req.origin)]⟩ ∧
      (appMain cfg env req).2 = Trace.empty) := by
  have hmain := appMain_post cfg env req key body hO hG hk hb
  have htr : (appMain cfg env req).2 =
      (postFlow cfg env (get_origin_header req.origin) body).2 := by
    rw [hmain]
    rcases postFlow cfg env (get_origin_header req.origin) body with ⟨res, tr⟩
    cases res <;> rfl
  refine ⟨?_, ?_, ?_⟩
  · intro ht
    obtain ⟨hf, rest, hc⟩ :=
      postFlow_text_branch cfg env (get_origin_header req.origin) body ht
    rw [htr]
    exact ⟨hf, rest, hc⟩
  · intro ht hu
    obtain ⟨hf, h404⟩ :=
      postFlow_url_branch cfg env (get_origin_header req.origin) body ht hu
    refine ⟨by rw [htr]; exact hf, ?_⟩
    intro hempty
    rw [hmain, h404 hempty]
  · intro ht hu
    have h400 := postFlow_400 cfg env (get_origin_header req.origin) body ht hu
    rw [hmain, h400]
    exact ⟨rfl, rfl⟩

/-- A POST request carrying raw text in its body. -/
def reqText : Request :=
  ⟨"POST", "https://readright.appwrite.network", some "key", none,
   some ⟨none, some "Sample article body.", none⟩⟩

/-- A POST request with an empty JSON body. -/
def reqEmptyBody : Request :=
  ⟨"POST", "https://readright.appwrite.network", some "key", none,
   some ⟨none, none, none⟩⟩

/-- Witness for C4: a POST with `text` set fetches no URL and its first
LLM call is the title call on that text; a POST with empty body answers
400 with the CORS header and makes no external calls. -/
theorem post_dispatch_witness :
    ((appMain cfgA envA reqText).2.fetchedUrls = [] ∧
      ∃ rest, (appMain cfgA envA reqText).2.llmCalls =
        LLMCall.mk "gemini-2.5-flash" (some (-1))
          (titlePrompt "Sample article body.") :: rest) ∧
    ((appMain cfgA envA reqEmptyBody).1 =
      ⟨400, .empty, [(ACAO, "https://readright.appwrite.network")]⟩ ∧
     (appMain cfgA envA reqEmptyBody).2 = Trace.empty) := by
  constructor
  · exact (post_dispatch cfgA envA reqText "key" _
      (by decide) (by decide) rfl rfl).1 rfl
  · exact (post_dispatch cfgA envA reqEmptyBody "key" _
      (by decide) (by decide) rfl rfl).2.2 rfl rfl

/-! ## C10: empty-string text is falsy -/

/-- The pipeline reads the request body only through `docid`. -/
theorem pipeline_body_docid (cfg : Config) (env : Env) (allowed : String)
    (b1 b2 : ReqBody) (articleText title : String) (calls0 : List LLMCall)
    (fetched : List String) (h : b1.docid = b2.docid) :
    pipeline cfg env allowed b1 articleText title calls0 fetched =
      pipeline cfg env allowed b2 articleText title calls0 fetched := by
  unfold pipeline
  rw [h]

/-- A body whose `text` is the empty string takes the same POST branch as
one whose `text` is absent. -/
theorem postFlow_empty_text (cfg : Config) (env : Env) (allowed : String)
    (u d : Option String) :
    postFlow cfg env allowed ⟨u, some "", d⟩ =
      postFlow cfg env allowed ⟨u, none, d⟩ := by
  simp only [postFlow]
  rw [show truthy (ReqBody.mk u (some "") d).text = false from rfl,
      show truthy (ReqBody.mk u none d).text = false from rfl]
  simp only [Bool.false_eq_true, if_false]
  by_cases hu : truthy u = true
  · rw [if_pos hu, if_pos hu]
    by_cases hft :
        (fetch_article_text env.http cfg.diffbotToken (u.getD "")).1 = ""
    · rw [if_pos hft, if_pos hft]
    · rw [if_neg hft, if_neg hft]
      exact pipeline_body_docid cfg env allowed _ _ _ _ _ _ rfl
  · rw [if_neg hu, if_neg hu]

/-- C10: the POST branches test `text` by Python truthiness, not key
presence.  A request whose body binds `text` to the empty string behaves
exactly as one whose body has no `text` key (falling through to the `url`
branch); in particular, when `url` is also absent or empty the response is
400 and no LLM call is ever made, so empty-string text never reaches the
generation pipeline. -/
theorem empty_text_is_falsy (cfg : Config) (env : Env)
    (method origin : String) (key wid u d : Option String) :
    appMain cfg env ⟨method, origin, key, wid, some ⟨u, some "", d⟩⟩ =
      appMain cfg env ⟨method, origin, key, wid, some ⟨u, none, d⟩⟩ ∧
    (∀ k, method ≠ "OPTIONS" → method ≠ "GET" → key = some k →
      truthy u = false →
      (appMain cfg env ⟨method, origin, key, wid, some ⟨u, some "", d⟩⟩).1.status
          = 400 ∧
      (appMain cfg env ⟨method, origin, key, wid, some ⟨u, some "", d⟩⟩).2.llmCalls
          = []) := by
  constructor
  · simp only [appMain, mainTry]
    rw [postFlow_empty_text cfg env (get_origin_header origin) u d]
  · intro k hO hG hk hu
    subst hk
    have h400 : postFlow cfg env (get_origin_header origin) ⟨u, some "", d⟩ =
        (.ok ⟨400, .empty, [(ACAO, get_origin_header origin)]⟩, Trace.empty) :=
      postFlow_400 cfg env _ _ rfl hu
    have hmain := appMain_post cfg env
      ⟨method, origin, some k, wid, some ⟨u, some "", d⟩⟩ k ⟨u, some "", d⟩
      hO hG rfl rfl
    rw [hmain, h400]
    exact ⟨rfl, rfl⟩

/-- Witness for C10: a POST whose body is `{"text": ""}` answers 400 with
no LLM calls, exactly like a body with no text at all. -/
theorem empty_text_is_falsy_witness :
    appMain cfgA envA ⟨"POST", "o", some "k", none, some ⟨none, some "", none⟩⟩ =
      appMain cfgA envA ⟨"POST", "o", some "k", none, some ⟨none, none, none⟩⟩ ∧
    (appMain cfgA envA
        ⟨"POST", "o", some "k", none, some ⟨none, some "", none⟩⟩).1.status
      = 400 ∧
    (appMain cfgA envA
        ⟨"POST", "o", some "k", none, some ⟨none, some "", none⟩⟩).2.llmCalls
      = [] := by
  obtain ⟨h1, h2⟩ :=
    empty_text_is_falsy cfgA envA "POST" "o" (some "k") none none none
  exact ⟨h1, h2 "k" (by decide) (by decide) rfl rfl⟩

/-! ## C9: the key of the persisted row -/

/-- Whenever the pipeline reaches the row insertion, the `row_id` argument
is the request body's `docid`, passed through unchanged. -/
theorem pipeline_rowInsert (cfg : Config) (env : Env) (allowed : String)
    (body : ReqBody) (articleText title : String) (calls0 : List LLMCall)
    (fetched : List String) (p : Option String × RowData)
    (h : (pipeline cfg env allowed body articleText title calls0 fetched).2.rowInsert
      = some p) :
    p.1 = body.docid := by
  simp only [pipeline] at h
  rcases hs : (generate_with_fallback env.llm (simplifyPrompt articleText)).1 with e | simplified
  · rw [hs] at h; simp at h
  · rw [hs] at h
    dsimp only at h
    rcases htl : (generate_with_fallback env.llm (tldrPrompt articleText)).1 with e | tldrText
    · rw [htl] at h; simp at h
    · rw [htl] at h
      dsimp only at h
      rcases hcf : env.createFile cfg.bucketId with e | fileId
      · rw [hcf] at h; simp at h
      · rw [hcf] at h
        dsimp only at h
        rcases hcr : env.createRow cfg.databaseId cfg.tableId body.docid
            ⟨title, simplified, tldrText,
             "https://fra.cloud.appwrite.io/v1/storage/buckets/" ++
               cfg.bucketId ++ "/files/" ++ fileId ++ "/view?project=" ++
               cfg.projectId⟩ with e | rowId
        · rw [hcr] at h
          dsimp only at h
          injection h with h
          subst h
          rfl
        · rw [hcr] at h
          dsimp only at h
          injection h with h
          subst h
          rfl

/-- Whenever the handler reaches the row insertion, the body parsed and
the `row_id` argument is that body's `docid`. -/
theorem appMain_rowInsert (cfg : Config) (env : Env) (req : Request)
    (p : Option String × RowData)
    (h : (appMain cfg env req).2.rowInsert = some p) :
    ∃ body, req.bodyJson = some body ∧ p.1 = body.docid := by
  have htr : (appMain cfg env req).2 =
      (mainTry cfg env req (get_origin_header req.origin)).2 := by
    simp only [appMain]
    rcases mainTry cfg env req (get_origin_header req.origin) with ⟨res, tr⟩
    cases res <;> rfl
  rw [htr] at h
  simp only [mainTry] at h
  by_cases hO : req.method = "OPTIONS"
  · rw [if_pos hO] at h
    simp [Trace.empty] at h
  · rw [if_neg hO] at h
    rcases hk : req.appwriteKey with - | key
    · rw [hk] at h
      simp [Trace.empty] at h
    · rw [hk] at h
      by_cases hG : req.method = "GET"
      · rw [if_pos hG] at h
        rcases hge : env.getExecution cfg.functionId req.workerid with e | dd
        · rw [hge] at h
          simp [Trace.empty] at h
        · rw [hge] at h
          simp [Trace.empty] at h
      · rw [if_neg hG] at h
        rcases hb : req.bodyJson with - | body
        · rw [hb] at h
          simp [Trace.empty] at h
        · rw [hb] at h
          dsimp only at h
          refine ⟨body, rfl, ?_⟩
          simp only [postFlow] at h
          by_cases ht : truthy body.text = true
          · rw [if_pos ht] at h
            rcases hgt : (generate_title env.llm (body.text.getD "")).1 with e | title
            · rw [hgt] at h
              simp at h
            · rw [hgt] at h
              exact pipeline_rowInsert _ _ _ _ _ _ _ _ _ h
          · rw [if_neg ht] at h
            by_cases hu : truthy body.url = true
            · rw [if_pos hu] at h
              by_cases hft : (fetch_article_text env.http cfg.diffbotToken
                  (body.url.getD "")).1 = ""
              · rw [if_pos hft] at h
                simp at h
              · rw [if_neg hft] at h
                exact pipeline_rowInsert _ _ _ _ _ _ _ _ _ h
            · rw [if_neg hu] at h
              simp [Trace.empty] at h

/-- C9 (amended): on the POST success path the persisted row's key is the
caller-supplied `docid` passed through unchanged — `row_id=None` when the
body has no `docid`; the handler never substitutes a server-generated id —
and the inserted record is a `RowData`, which consists of exactly the
fields `title`, `simplifiedText`, `tldr`, `audioUrl`. -/
theorem row_insert_keyed_by_docid (cfg : Config) (env : Env) (req : Request)
    (body : ReqBody) (hb : req.bodyJson = some body)
    (p : Option String × RowData)
    (h : (appMain cfg env req).2.rowInsert = some p) :
    p.1 = body.docid := by
  obtain ⟨b, hb2, hp⟩ := appMain_rowInsert cfg env req p h
  rw [hb] at hb2
  cases hb2
  exact hp

/-- Environment identical to `envA` except that the row store accepts a
null `row_id` (isolating the handler's own behavior: the handler supplies
no id of its own when `docid` is absent). -/
def envB : Env :=
  { envA with createRow := fun _ _ _ _ => .ok "rowX" }

/-- A POST request whose body carries text and a caller-supplied docid. -/
def reqDoc : Request :=
  ⟨"POST", "x", some "k", none, some ⟨none, some "text!", some "row42"⟩⟩

/-- The row data produced by `llmA` on the `"text!"` article under `cfgA`:
raw (unstripped) title from the direct primary call, stripped simplified
text and summary, and the constructed storage view link. -/
def rdW : RowData :=
  ⟨" Hello. ", "Hello.", "Hello.",
   "https://fra.cloud.appwrite.io/v1/storage/buckets/bucket/files/file1/view?project=proj"⟩

/-- C9 (counterexample): a POST whose body has no `docid` does not persist
the row under a server-generated id.  On a fully successful run the
insertion's `row_id` argument is `None` — the absent `docid` passed
through unchanged; the handler never substitutes a generated id.  (With
the real Appwrite SDK a `None` `row_id` raises client-side, so the claimed
server-generated-id path cannot occur either way.) -/
theorem row_insert_no_docid_counterexample :
    (appMain cfgA envB
      ⟨"POST", "x", some "k", none, some ⟨none, some "text!", none⟩⟩).1.status
        = 200 ∧
    (appMain cfgA envB
      ⟨"POST", "x", some "k", none, some ⟨none, some "text!", none⟩⟩).2.rowInsert
        = some (none, rdW) := by
  constructor
  · decide
  · decide

/-- Witness for the amended C9: a caller-supplied `docid` is the key the
row insertion receives. -/
theorem row_insert_keyed_by_docid_witness :
    (appMain cfgA envA reqDoc).2.rowInsert = some (some "row42", rdW) ∧
    ((some "row42", rdW) : Option String × RowData).1 =
      (ReqBody.mk none (some "text!") (some "row42")).docid := by
  have hins : (appMain cfgA envA reqDoc).2.rowInsert =
      some (some "row42", rdW) := by decide
  exact ⟨hins, row_insert_keyed_by_docid cfgA envA reqDoc _ rfl _ hins⟩

end ReadRight
